import Mathlib

/-!
Verification of the pyzfs core (libzfs_core): a shallow embedding of
`src/libzfs_core/nvlist.py`, `src/libzfs_core/_error_translation.py` and
`src/libzfs_core/_constants.py`, together with theorems about the embedded
definitions.

Python strings are modelled as `List Char`, Python integers as `Int`,
Python dicts as insertion-ordered association lists.  Raised Python
exceptions are modelled by an explicit error type `PyExc`; both the
repository's own exception classes (the `exceptions` module, which is not
among the sources and is therefore modelled from the spec) and the dynamic
errors Python itself raises (NameError, TypeError, AttributeError,
MemoryError, ...) appear as constructors.  The libnvpair C library is an
external collaborator; it is modelled through its boundary contract (a
tagged, ordered, add-by-copy container keyed by handle) as described in the
spec's external-interface section.

The Python source is embedded as written, including its slips: the
`_prop_name_to_type_str,get(...)` comma (a NameError on the undefined name
`get`), the two-argument call `_nvlist_add_array(nvlist, v)` (a TypeError,
the function takes three arguments), the undefined names `ffi` and
`s_array` in the string/CData array branches, the doubled
`lzc_exc.lzc_exc.` prefix in `lzc_rollback_xlate_error` (an
AttributeError), and the undefined name `nvlist` inside `nvlist_out`
(a NameError, the local is called `nvlistp`).
-/

set_option maxRecDepth 8000

/-- Python `str` modelled as a list of characters. -/
abbrev PyStr := List Char

/-- Python `str.split(sep)` for a one-character separator: every occurrence
splits, empty pieces are kept, and the empty string splits to `[""]`. -/
def pySplit (sep : Char) : PyStr → List PyStr
  | [] => [[]]
  | c :: rest =>
    let ps := pySplit sep rest
    if c = sep then [] :: ps else (c :: ps.headD []) :: ps.tail

/-! ## `_constants.py` -/

/-- Maximum length of any ZFS name (`MAXNAMELEN` in `_constants.py`). -/
def MAXNAMELEN : Nat := 255

/-! ## errno values used by `_error_translation.py` (Linux numbering) -/

def ENOENT : Int := 2
def E2BIG : Int := 7
def EBADF : Int := 9
def EAGAIN : Int := 11
def ENOMEM : Int := 12
def EBUSY : Int := 16
def EEXIST : Int := 17
def EXDEV : Int := 18
def EINVAL : Int := 22

/-! ## NameSyntax (`_error_translation.py`, bottom of the file) -/

/-- The character set `string.ascii_letters + string.digits + '-_.: '`
used by `_is_valid_name_component`. -/
def allowedChars : List Char :=
  ("abcdefghijklmnopqrstuvwxyzABCDEFGHIJKLMNOPQRSTUVWXYZ0123456789-_.: ").data

/-- Embedding of `_is_valid_name_component`: the component is non-empty and
consists only of allowed characters. -/
def _is_valid_name_component (component : PyStr) : Bool :=
  !component.isEmpty && component.all (fun x => allowedChars.contains x)

/-- Embedding of `_is_valid_fs_name`: the name is non-empty and every
`/`-separated component is a valid name component. -/
def _is_valid_fs_name (name : PyStr) : Bool :=
  !name.isEmpty && (pySplit '/' name).all _is_valid_name_component

/-- Embedding of `_is_valid_snap_name`: splitting on `@` yields exactly two
parts, a valid filesystem name and a valid component. -/
def _is_valid_snap_name (name : PyStr) : Bool :=
  let parts := pySplit '@' name
  parts.length == 2 && _is_valid_fs_name (parts.headD [])
    && _is_valid_name_component ((parts.drop 1).headD [])

/-- Embedding of `_is_valid_bmark_name`: same as `_is_valid_snap_name`
with `#` in place of `@`. -/
def _is_valid_bmark_name (name : PyStr) : Bool :=
  let parts := pySplit '#' name
  parts.length == 2 && _is_valid_fs_name (parts.headD [])
    && _is_valid_name_component ((parts.drop 1).headD [])

/-- Embedding of `_pool_name`: `re.split('[/@#]', name, 1)[0]`, i.e. the
prefix of the name before the first `/`, `@` or `#`. -/
def _pool_name (name : PyStr) : PyStr :=
  name.takeWhile (fun c => !(c = '/' || c = '@' || c = '#'))

/-- Embedding of `_fs_name`: `re.split('[@#]', name, 1)[0]`, i.e. the
prefix of the name before the first `@` or `#`. -/
def _fs_name (name : PyStr) : PyStr :=
  name.takeWhile (fun c => !(c = '@' || c = '#'))

/-! ## The exception classes (`exceptions` module)

Modelled from the spec: the repository's `exceptions` module is not among
the sources; only its use sites in `_error_translation.py` are.  The spec's
error-handling taxonomy (kinds carrying the offending name, a
generic-wrapped-status escape hatch carrying the raw code and an operation
description, and batch kinds wrapping an ordered per-item list plus a
suppressed count) gives the constructors below.  Only the kinds reachable
from the embedded classifiers are included. -/

inductive LzcError where
  | NameInvalid (name : Option PyStr)
  | NameTooLong (name : Option PyStr)
  | PropertyInvalid (name : Option PyStr)
  | PoolsDiffer (name : Option PyStr)
  | DuplicateSnapshots (name : Option PyStr)
  | FilesystemExists (name : Option PyStr)
  | ParentNotFound (name : Option PyStr)
  | DatasetNotFound (name : Option PyStr)
  | FilesystemNotFound (name : Option PyStr)
  | SnapshotNotFound (name : Option PyStr)
  | SnapshotExists (name : Option PyStr)
  | GenericWrapped (ret : Int) (name : Option PyStr) (descr : String)
deriving DecidableEq

/-- Batch failure classes (only the one exercised here is needed). -/
inductive BatchKind where
  | SnapshotFailure
deriving DecidableEq

/-- A raised Python exception: either one of the repository's typed
failures, a batch failure wrapping a per-item list plus a suppressed count,
or one of Python's own dynamic errors. -/
inductive PyExc where
  | lzc (e : LzcError)
  | batch (kind : BatchKind) (errors : List LzcError) (suppressed : Int)
  | attributeError (attr : String)
  | nameError (n : String)
  | typeError (msg : String)
  | memoryError (msg : String)
  | runtimeError (msg : String)
  | indexError
deriving DecidableEq

/-! ## The nvlist codec (`nvlist.py`) -/

/-- The CFFI primitive C types appearing in `_type_to_suffix`. -/
inductive CType where
  | uint8_t | int8_t | uint16_t | int16_t | uint32_t | int32_t
  | uint64_t | int64_t | boolean_t | uchar_t
deriving DecidableEq

/-- Embedding of the `_type_to_suffix` table: the accessor-name suffix for
each supported CFFI C type. -/
def _type_to_suffix : CType → String
  | .uint8_t => "uint8"
  | .int8_t => "int8"
  | .uint16_t => "uint16"
  | .int16_t => "int16"
  | .uint32_t => "uint32"
  | .int32_t => "int32"
  | .uint64_t => "uint64"
  | .int64_t => "int64"
  | .boolean_t => "boolean"
  | .uchar_t => "byte"

/-- A Python value of the kinds `nvlist.py` dispatches on: `None`, `bool`,
`int`/`long`, `str`, a CFFI CData scalar, `dict`, `list`, or a value of any
other type (`vother` carries the Python type name, e.g. "float"). -/
inductive PyVal where
  | vnone
  | vbool (b : Bool)
  | vint (n : Int)
  | vstr (s : PyStr)
  | vcdata (t : CType) (n : Int)
  | vdict (d : List (PyStr × PyVal))
  | vlist (l : List PyVal)
  | vother (tyName : String)

/-- Python `type(x).__name__` for the modelled values.  All CFFI CData
objects share one Python type (`type(x)` is identical for a `uint32_t` and
an `int64_t` cast), so every `vcdata` yields the same name regardless of
the declared C type. -/
def pyTypeName : PyVal → String
  | .vnone => "NoneType"
  | .vbool _ => "bool"
  | .vint _ => "int"
  | .vstr _ => "str"
  | .vcdata _ _ => "CData"
  | .vdict _ => "dict"
  | .vlist _ => "list"
  | .vother tyName => tyName

/-- An entry payload of the external tagged container: the type tag is the
accessor suffix, arrays are separate tags, nested containers hold copies of
their entry lists (add-by-copy per the boundary contract). -/
inductive WireVal where
  | wboolean
  | wboolean_value (b : Bool)
  | wnum (suffix : String) (n : Int)
  | wstring (s : PyStr)
  | wnvlist (entries : List (PyStr × WireVal))
  | wboolean_array (bs : List Bool)
  | wnum_array (suffix : String) (ns : List Int)
  | wstring_array (ss : List PyStr)
  | wnvlist_array (subs : List (List (PyStr × WireVal)))

/-- The C-heap model: live containers keyed by handle, a counter supplying
fresh handles, and a schedule telling which `nvlist_alloc` calls fail (the
head of `allocFail` answers the next call, an empty schedule means no
failures). -/
structure NvHeap where
  nextId : Nat
  contents : List (Nat × List (PyStr × WireVal))
  allocFail : List Bool

/-- The effect of a piece of Python code: it transforms the C heap and
either returns a value or raises (state is kept on a raise). -/
abbrev M (α : Type) := NvHeap → Except PyExc α × NvHeap

def mpure {α : Type} (a : α) : M α := fun s => (.ok a, s)

def mbind {α β : Type} (x : M α) (f : α → M β) : M β := fun s =>
  match x s with
  | (.ok a, s1) => f a s1
  | (.error e, s1) => (.error e, s1)

def mthrow {α : Type} (e : PyExc) : M α := fun s => (.error e, s)

/-- Model of `_lib.nvlist_alloc`: returns the C status and the stored
handle.  On success a fresh empty container is installed; on a scheduled
failure the status is ENOMEM and the output slot is untouched (the caller
sees NULL, modelled by handle 0 being unused). -/
def nvlist_alloc : M (Int × Nat) := fun s =>
  if s.allocFail.headD false then
    (.ok (12, 0), { s with allocFail := s.allocFail.tail })
  else
    (.ok (0, s.nextId),
      { s with allocFail := s.allocFail.tail, nextId := s.nextId + 1,
               contents := (s.nextId, []) :: s.contents })

/-- Model of `_lib.nvlist_free`: drops the container with that handle. -/
def nvlist_free (h : Nat) : M Unit := fun s =>
  (.ok (), { s with contents := s.contents.filter (fun p => decide (p.1 ≠ h)) })

/-- The entry list currently held by a handle (empty for a dead handle). -/
def lookupContents (s : NvHeap) (h : Nat) : List (PyStr × WireVal) :=
  match s.contents.find? (fun p => p.1 == h) with
  | some p => p.2
  | none => []

/-- Appends one `(name, payload)` entry to the container `h`; the C adder
functions report status 0 in this model (allocation failures are modelled
only for `nvlist_alloc`, which is the failure the source handles). -/
def addEntry (h : Nat) (k : PyStr) (wv : WireVal) : M Int := fun s =>
  let cs := s.contents.map (fun p => if p.1 = h then (p.1, p.2 ++ [(k, wv)]) else p)
  (.ok 0, { s with contents := cs })

def nvlist_add_boolean (h : Nat) (k : PyStr) : M Int :=
  addEntry h k .wboolean

def nvlist_add_boolean_value (h : Nat) (k : PyStr) (b : Bool) : M Int :=
  addEntry h k (.wboolean_value b)

def nvlist_add_string (h : Nat) (k : PyStr) (v : PyStr) : M Int :=
  addEntry h k (.wstring v)

/-- Model of `getattr(_lib, "nvlist_add_%s" % suffix)` applied to a scalar:
the chosen accessor suffix becomes the entry's type tag. -/
def nvlist_add_suffixed (suffix : String) (h : Nat) (k : PyStr) (n : Int) : M Int :=
  addEntry h k (.wnum suffix n)

/-- Model of `_lib.nvlist_add_nvlist`: copies the sub-container's entries
into the parent (add-by-copy). -/
def nvlist_add_nvlist (h : Nat) (k : PyStr) (sub : Nat) : M Int := fun s =>
  addEntry h k (.wnvlist (lookupContents s sub)) s

def nvlist_add_boolean_array (h : Nat) (k : PyStr) (bs : List Bool) : M Int :=
  addEntry h k (.wboolean_array bs)

/-- Model of `_lib.nvlist_add_nvlist_array`: copies every sub-container's
entries into the parent (add-by-copy). -/
def nvlist_add_nvlist_array (h : Nat) (k : PyStr) (subs : List Nat) : M Int := fun s =>
  addEntry h k (.wnvlist_array (subs.map (lookupContents s))) s

/-- Embedding of the `_prop_name_to_type_str` table: the integer-valued
keys that are always encoded with a 32-bit accessor. -/
def _prop_name_to_type_str : List (PyStr × String) :=
  [(("rewind-request").data, "uint32"),
   (("type").data, "uint32"),
   (("N_MORE_ERRORS").data, "int32"),
   (("pool_context").data, "int32")]

/-- The trailing `if ret != 0: raise MemoryError('nvlist_add failed')`
check that every adder's status flows into. -/
def checkRet (x : M Int) : M Unit :=
  mbind x (fun ret =>
    if ret ≠ 0 then mthrow (.memoryError "nvlist_add failed") else mpure ())

/-- Embedding of `_dict_to_nvlist`.  Per entry it dispatches on the value
exactly as the source's isinstance chain does (dict, list, basestring,
bool, None, int/long, CData, else):
* dict: the `with nvlist_in(v) as sub_nvlist` block is inlined — allocate
  (raising MemoryError on failure), populate recursively, add by copy,
  free, then the shared ret check;
* list: the source calls `_nvlist_add_array(nvlist, v)` with two arguments
  while the function takes three, so Python raises TypeError at the call;
* int/long: the source evaluates `_prop_name_to_type_str,get(k, "uint64")`
  — a tuple whose second element is the undefined name `get` — so Python
  raises NameError before any accessor is chosen;
* CData: the accessor named by `_type_to_suffix` is used;
* anything else raises TypeError for an unsupported value type. -/
def _dict_to_nvlist : List (PyStr × PyVal) → Nat → M Unit
  | [], _ => mpure ()
  | (k, v) :: rest, nvl =>
    mbind (addOne k v nvl) (fun _ => _dict_to_nvlist rest nvl)
where addOne : PyStr → PyVal → Nat → M Unit
  | k, .vdict d, nvl =>
    mbind nvlist_alloc (fun rh =>
      if rh.1 ≠ 0 then mthrow (.memoryError "nvlist_alloc failed")
      else mbind (_dict_to_nvlist d rh.2) (fun _ =>
        mbind (nvlist_add_nvlist nvl k rh.2) (fun ret =>
          mbind (nvlist_free rh.2) (fun _ =>
            if ret ≠ 0 then mthrow (.memoryError "nvlist_add failed")
            else mpure ()))))
  | _, .vlist _, _ =>
    mthrow (.typeError "_nvlist_add_array() takes exactly 3 arguments (2 given)")
  | k, .vstr sv, nvl => checkRet (nvlist_add_string nvl k sv)
  | k, .vbool b, nvl => checkRet (nvlist_add_boolean_value nvl k b)
  | k, .vnone, nvl => checkRet (nvlist_add_boolean nvl k)
  | _, .vint _, _ => mthrow (.nameError "get")
  | k, .vcdata t n, nvl => checkRet (nvlist_add_suffixed (_type_to_suffix t) nvl k n)
  | _, .vother tyName, _ => mthrow (.typeError ("Unsupported value type " ++ tyName))

/-- Embedding of the part of `nvlist_in` that runs before the `yield`:
allocate the container (MemoryError on failure) and populate it from the
dictionary.  A failure inside `_dict_to_nvlist` propagates before the
try/finally is entered, so the container is not freed on that path. -/
def nvlist_in_acquire (props : List (PyStr × PyVal)) : M Nat :=
  mbind nvlist_alloc (fun rh =>
    if rh.1 ≠ 0 then mthrow (.memoryError "nvlist_alloc failed")
    else mbind (_dict_to_nvlist props rh.2) (fun _ => mpure rh.2))

/-- One `_dict_to_nvlist(array[i], c_array[i])` call from the allocation
loop; all elements are dicts when this is reached (the homogeneity loop
passed with a dict specimen), a non-dict would fail looking up `.items()`. -/
def populateElem : PyVal → Nat → M Unit
  | .vdict d, h => _dict_to_nvlist d h
  | _, _ => mthrow (.attributeError "items")

/-- The allocate-and-populate loop of `_nvlist_add_array`'s dict branch:
allocate each sub-container in turn, breaking on the first failed
allocation (that slot stays NULL), populating each successful one
immediately.  Returns the allocated handles in order plus the last
allocation status.  A raise from the populate call propagates. -/
def allocPopulate : List PyVal → M (List Nat × Int)
  | [] => mpure ([], 0)
  | v :: rest =>
    mbind nvlist_alloc (fun rh =>
      if rh.1 ≠ 0 then mpure ([], rh.1)
      else mbind (populateElem v rh.2) (fun _ =>
        mbind (allocPopulate rest) (fun pr => mpure (rh.2 :: pr.1, pr.2))))

/-- The cleanup loop `for i in range(0, length): if c_array[i] != NULL:
nvlist_free(c_array[i])`, over exactly the non-NULL handles. -/
def freeAll : List Nat → M Unit
  | [] => mpure ()
  | h :: t => mbind (nvlist_free h) (fun _ => freeAll t)

/-- Embedding of `_nvlist_add_array`.  `specimen = array[0]` (IndexError on
an empty list), then the homogeneity loop raises TypeError at the first
element whose Python type differs from the specimen's, then the dispatch:
* dict: allocate-and-populate loop; if an allocation failed, free every
  non-NULL handle and raise MemoryError; otherwise add the array by copy,
  free the handles and run the shared ret check;
* basestring: the loop body evaluates `ffi.new(...)` but the module binds
  `_ffi`, not `ffi`, so Python raises NameError;
* bool: `nvlist_add_boolean_array` on the elements;
* int/long: the `_prop_name_to_type_str,get(...)` comma again — NameError
  on the undefined name `get`;
* CData: the call passes `s_array`, an undefined name — NameError;
* anything else raises TypeError for an unsupported value type. -/
def _nvlist_add_array (nvl : Nat) (key : PyStr) (array : List PyVal) : M Unit :=
  match array with
  | [] => mthrow .indexError
  | specimen :: rest =>
    match rest.find? (fun x => pyTypeName x != pyTypeName specimen) with
    | some bad =>
      mthrow (.typeError ("Array has elements of different types: " ++
        pyTypeName specimen ++ " and " ++ pyTypeName bad))
    | none =>
      match specimen with
      | .vdict _ =>
        mbind (allocPopulate array) (fun pr =>
          if pr.2 ≠ 0 then
            mbind (freeAll pr.1) (fun _ => mthrow (.memoryError "nvlist_alloc failed"))
          else
            mbind (nvlist_add_nvlist_array nvl key pr.1) (fun ret =>
              mbind (freeAll pr.1) (fun _ =>
                if ret ≠ 0 then mthrow (.memoryError "nvlist_add failed")
                else mpure ())))
      | .vstr _ => mthrow (.nameError "ffi")
      | .vbool _ =>
        checkRet (nvlist_add_boolean_array nvl key
          (array.map (fun x => match x with | .vbool b => b | _ => false)))
      | .vint _ => mthrow (.nameError "get")
      | .vcdata _ _ => mthrow (.nameError "s_array")
      | .vnone => mthrow (.typeError "Unsupported value type NoneType")
      | .vlist _ => mthrow (.typeError "Unsupported value type list")
      | .vother tyName => mthrow (.typeError ("Unsupported value type " ++ tyName))

/-- Embedding of one full `with nvlist_out(props) as nvlistp: <body>` run.
The slot starts NULL; the external call (the body) may install a freshly
populated container (`bodyFills`) and may raise (`bodyRaises`).  On normal
body exit the source runs `props.clear()` and then
`_nvlist_to_dict(nvlist[0], props)` — but `nvlist` is an undefined name
(the local is `nvlistp`), so a NameError is raised after the clear.  The
finally clause `if (nvlist[0] != _ffi.NULL): _lib.nvlist_free(nvlist[0])`
references the same undefined name, so the NameError raised there
supersedes whatever exception was in flight and the container is never
freed.  The result is the raised exception, the final heap, and the final
contents of the caller's `props` dictionary. -/
def nvlist_out_run (props : List (PyStr × PyVal))
    (bodyFills : Option (List (PyStr × WireVal))) (bodyRaises : Option PyExc)
    (s : NvHeap) : Except PyExc Unit × NvHeap × List (PyStr × PyVal) :=
  let s1 := match bodyFills with
    | none => s
    | some c => { s with nextId := s.nextId + 1, contents := (s.nextId, c) :: s.contents }
  let afterBody : Except PyExc Unit × List (PyStr × PyVal) :=
    match bodyRaises with
    | some e => (.error e, props)
    | none => (.error (.nameError "nvlist"), [])
  ((.error (.nameError "nvlist") : Except PyExc Unit), s1, afterBody.2)

/-! ## Predicates used by the cleanup theorem -/

/-- Scalar values whose encoding by `_dict_to_nvlist` performs no
allocation and cannot raise. -/
def scalarOk : PyVal → Bool
  | .vstr _ => true
  | .vbool _ => true
  | .vnone => true
  | .vcdata _ _ => true
  | _ => false

/-- A dict all of whose values are such scalars. -/
def flatDict : PyVal → Bool
  | .vdict d => d.all (fun p => scalarOk p.2)
  | _ => false

/-- Heap sanity: every live handle is below the fresh-handle counter. -/
def NvHeap.Fresh (s : NvHeap) : Prop :=
  ∀ id ∈ s.contents.map Prod.fst, id < s.nextId

instance (s : NvHeap) : Decidable s.Fresh := by
  unfold NvHeap.Fresh; infer_instance

/-- How populating the container `h` relates an old heap-entry to a new
one: the handle is unchanged, and entries of other containers are
completely untouched. -/
def entryRel (h : Nat) (p q : Nat × List (PyStr × WireVal)) : Prop :=
  q.1 = p.1 ∧ (p.1 ≠ h → q = p)

/-! ## Error classifiers (`_error_translation.py`)

Each classifier is a pure function from the raw status (plus contextual
arguments) to `Except PyExc Unit`: `.ok ()` models a normal return,
`.error e` models `raise e`. -/

/-- Embedding of `lzc_create_xlate_error`. -/
def lzc_create_xlate_error (ret : Int) (name : PyStr) (is_zvol : Bool)
    (props : List (PyStr × PyVal)) : Except PyExc Unit :=
  if ret = 0 then .ok ()
  else if ret = EINVAL then
    if !(_is_valid_fs_name name) then .error (.lzc (.NameInvalid (some name)))
    else if name.length > MAXNAMELEN then .error (.lzc (.NameTooLong (some name)))
    else .error (.lzc (.PropertyInvalid (some name)))
  else if ret = EEXIST then .error (.lzc (.FilesystemExists (some name)))
  else if ret = ENOENT then .error (.lzc (.ParentNotFound (some name)))
  else .error (.lzc (.GenericWrapped ret (some name) "Failed to create filesystem"))

/-- Embedding of `lzc_clone_xlate_error`. -/
def lzc_clone_xlate_error (ret : Int) (name : PyStr) (origin : PyStr)
    (props : List (PyStr × PyVal)) : Except PyExc Unit :=
  if ret = 0 then .ok ()
  else if ret = EINVAL then
    if !(_is_valid_fs_name name) then .error (.lzc (.NameInvalid (some name)))
    else if !(_is_valid_snap_name origin) then .error (.lzc (.NameInvalid (some origin)))
    else if name.length > MAXNAMELEN then .error (.lzc (.NameTooLong (some name)))
    else if origin.length > MAXNAMELEN then .error (.lzc (.NameTooLong (some origin)))
    else if _pool_name name ≠ _pool_name origin then .error (.lzc (.PoolsDiffer (some name)))
    else .error (.lzc (.PropertyInvalid (some name)))
  else if ret = EEXIST then .error (.lzc (.FilesystemExists (some name)))
  else if ret = ENOENT then .error (.lzc (.DatasetNotFound (some name)))
  else .error (.lzc (.GenericWrapped ret (some name) "Failed to create clone"))

/-- Embedding of `lzc_rollback_xlate_error`.  The final statement of the
source reads `raise lzc_exc.lzc_exc.genericException(...)`; the exceptions
module has no attribute `lzc_exc`, so reaching that statement raises
AttributeError instead of the generic wrapped-status failure. -/
def lzc_rollback_xlate_error (ret : Int) (name : PyStr) : Except PyExc Unit :=
  if ret = 0 then .ok ()
  else if ret = EINVAL then
    if !(_is_valid_fs_name name) then .error (.lzc (.NameInvalid (some name)))
    else if name.length > MAXNAMELEN then .error (.lzc (.NameTooLong (some name)))
    else .error (.lzc (.SnapshotNotFound (some name)))
  else if ret = ENOENT then
    if !(_is_valid_fs_name name) then .error (.lzc (.NameInvalid (some name)))
    else .error (.lzc (.FilesystemNotFound (some name)))
  else .error (.attributeError "lzc_exc")

/-! ## Batch helper (`_handleErrList`) and the snapshot batch classifier -/

/-- The in-band key holding the count of additional, unenumerated errors. -/
def nMoreErrorsKey : PyStr := ("N_MORE_ERRORS").data

/-- Embedding of `errlist.pop('N_MORE_ERRORS', 0)`: the value read (0 when
the key is absent). -/
def popGetD (l : List (PyStr × Int)) (k : PyStr) (d : Int) : Int :=
  match l.find? (fun p => p.1 == k) with
  | some p => p.2
  | none => d

/-- Embedding of `errlist.pop('N_MORE_ERRORS', 0)`: the remaining mapping
after the key has been removed. -/
def popRemove (l : List (PyStr × Int)) (k : PyStr) : List (PyStr × Int) :=
  l.eraseP (fun p => p.1 == k)

/-- Embedding of `_handleErrList`: with an empty error map, classify the
single aggregate status against the sole requested name (absent otherwise)
with suppressed count 0; otherwise pop the `N_MORE_ERRORS` entry as the
suppressed count and classify each remaining item against its own name. -/
def _handleErrList (ret : Int) (errlist : List (PyStr × Int)) (names : List PyStr)
    (exceptionKind : BatchKind) (mapper : Int → Option PyStr → LzcError) :
    Except PyExc Unit :=
  if ret = 0 then .ok ()
  else if errlist.length = 0 then
    .error (.batch exceptionKind
      [mapper ret (match names with | [n] => some n | _ => none)] 0)
  else
    .error (.batch exceptionKind
      ((popRemove errlist nMoreErrorsKey).map (fun p => mapper p.2 (some p.1)))
      (popGetD errlist nMoreErrorsKey 0))

/-- Embedding of the local `_map` of `lzc_snapshot_xlate_errors`. -/
def lzc_snapshot_map (snaps : List PyStr) (ret : Int) (name : Option PyStr) :
    LzcError :=
  if ret = EXDEV then
    let pool_names := snaps.map _pool_name
    let same_pool := pool_names.all (fun x => x == pool_names.headD [])
    if same_pool then .DuplicateSnapshots name else .PoolsDiffer name
  else if ret = EINVAL then
    if snaps.any (fun s => !(_is_valid_snap_name s)) then .NameInvalid name
    else if snaps.any (fun s => s.length > MAXNAMELEN) then .NameTooLong name
    else .PropertyInvalid name
  else if ret = EEXIST then .SnapshotExists name
  else if ret = ENOENT then .FilesystemNotFound name
  else .GenericWrapped ret name "Failed to create snapshot"

/-- Embedding of `lzc_snapshot_xlate_errors`. -/
def lzc_snapshot_xlate_errors (ret : Int) (errlist : List (PyStr × Int))
    (snaps : List PyStr) (props : List (PyStr × PyVal)) : Except PyExc Unit :=
  if ret = 0 then .ok ()
  else _handleErrList ret errlist snaps .SnapshotFailure (lzc_snapshot_map snaps)

/-- A 300-character syntactically valid filesystem name. -/
def name300 : PyStr := List.replicate 300 'a'

/-- A valid snapshot name used as a clone origin. -/
def originOk : PyStr := ("p/f@s").data

/-! # Theorems -/

/-! ## Helper lemmas about `pySplit` and the component check -/

theorem pySplit_ne_nil (sep : Char) (s : PyStr) : pySplit sep s ≠ [] := by
  cases s with
  | nil => simp [pySplit]
  | cons c rest => simp only [pySplit]; split <;> simp

theorem pySplit_length (sep : Char) (s : PyStr) :
    (pySplit sep s).length = s.count sep + 1 := by
  induction s with
  | nil => simp [pySplit]
  | cons c rest ih =>
    have hne := pySplit_ne_nil sep rest
    have hpos : 0 < (pySplit sep rest).length := List.length_pos.mpr hne
    by_cases hc : c = sep
    · subst hc
      simp [pySplit, List.count_cons, ih]
    · have hcc : (c == sep) = false := by simpa using hc
      simp [pySplit, hc, List.count_cons, hcc]
      omega

theorem valid_component_iff (c : PyStr) :
    _is_valid_name_component c = true ↔ (c ≠ [] ∧ ∀ ch ∈ c, ch ∈ allowedChars) := by
  simp [_is_valid_name_component]

/-! ## Claim C3 -/

/-- C3: for status EINVAL the classifiers test name-grammar syntax first,
then length against MAXNAMELEN, then (for clone) cross-name pool
consistency, and fall back to property-invalid last; in particular a
too-long syntactically valid name yields name-too-long, never
property-invalid. -/
theorem einval_classification_order (name origin : PyStr) (is_zvol : Bool)
    (props : List (PyStr × PyVal)) :
    (_is_valid_fs_name name = false →
      lzc_create_xlate_error EINVAL name is_zvol props =
        .error (.lzc (.NameInvalid (some name)))) ∧
    (_is_valid_fs_name name = true → name.length > MAXNAMELEN →
      lzc_create_xlate_error EINVAL name is_zvol props =
        .error (.lzc (.NameTooLong (some name)))) ∧
    (_is_valid_fs_name name = true → ¬(name.length > MAXNAMELEN) →
      lzc_create_xlate_error EINVAL name is_zvol props =
        .error (.lzc (.PropertyInvalid (some name)))) ∧
    (_is_valid_fs_name name = false →
      lzc_clone_xlate_error EINVAL name origin props =
        .error (.lzc (.NameInvalid (some name)))) ∧
    (_is_valid_fs_name name = true → _is_valid_snap_name origin = false →
      lzc_clone_xlate_error EINVAL name origin props =
        .error (.lzc (.NameInvalid (some origin)))) ∧
    (_is_valid_fs_name name = true → _is_valid_snap_name origin = true →
      name.length > MAXNAMELEN →
      lzc_clone_xlate_error EINVAL name origin props =
        .error (.lzc (.NameTooLong (some name)))) ∧
    (_is_valid_fs_name name = true → _is_valid_snap_name origin = true →
      ¬(name.length > MAXNAMELEN) → origin.length > MAXNAMELEN →
      lzc_clone_xlate_error EINVAL name origin props =
        .error (.lzc (.NameTooLong (some origin)))) ∧
    (_is_valid_fs_name name = true → _is_valid_snap_name origin = true →
      ¬(name.length > MAXNAMELEN) → ¬(origin.length > MAXNAMELEN) →
      _pool_name name ≠ _pool_name origin →
      lzc_clone_xlate_error EINVAL name origin props =
        .error (.lzc (.PoolsDiffer (some name)))) ∧
    (_is_valid_fs_name name = true → _is_valid_snap_name origin = true →
      ¬(name.length > MAXNAMELEN) → ¬(origin.length > MAXNAMELEN) →
      _pool_name name = _pool_name origin →
      lzc_clone_xlate_error EINVAL name origin props =
        .error (.lzc (.PropertyInvalid (some name)))) := by
  refine ⟨?_, ?_, ?_, ?_, ?_, ?_, ?_, ?_, ?_⟩ <;>
    intros <;>
    simp_all [lzc_create_xlate_error, lzc_clone_xlate_error, EINVAL] <;>
    split_ifs <;> first | rfl | omega

theorem einval_classification_order_witness :
    lzc_create_xlate_error EINVAL name300 false [] =
      .error (.lzc (.NameTooLong (some name300))) ∧
    lzc_clone_xlate_error EINVAL name300 originOk [] =
      .error (.lzc (.NameTooLong (some name300))) := by
  obtain ⟨_, h2, _, _, _, h6, _⟩ :=
    einval_classification_order name300 originOk false []
  exact ⟨h2 (by decide) (by decide), h6 (by decide) (by decide) (by decide)⟩

/-! ## Claim C6 -/

/-- C6 (failing case): for a status outside the EINVAL and ENOENT branches,
`lzc_rollback_xlate_error` does not raise a typed failure at all: the
doubled `lzc_exc.lzc_exc.` prefix in the source makes it raise
AttributeError instead of the generic wrapped-status failure.  The
zero-status case returns normally as specified. -/
theorem rollback_generic_path_attribute_error :
    lzc_rollback_xlate_error EEXIST ("pool/fs").data =
      .error (.attributeError "lzc_exc") ∧
    lzc_rollback_xlate_error 0 ("pool/fs").data = .ok () := by
  constructor <;> rfl

/-! ## Claim C8 -/

/-- C8: `_is_valid_fs_name` accepts exactly the strings all of whose
`/`-separated components are non-empty and drawn from the allowed character
set; "pool/fs" is valid while "pool//fs" and "" are not; and a 256-character
syntactically valid name is classified as name-too-long, not name-invalid. -/
theorem fs_name_grammar_characterization :
    (∀ s : PyStr,
      (_is_valid_fs_name s = true ↔
        (pySplit '/' s ≠ [] ∧
          ∀ c ∈ pySplit '/' s, c ≠ [] ∧ ∀ ch ∈ c, ch ∈ allowedChars))) ∧
    _is_valid_fs_name ("pool/fs").data = true ∧
    _is_valid_fs_name ("pool//fs").data = false ∧
    _is_valid_fs_name [] = false ∧
    lzc_create_xlate_error EINVAL (List.replicate 256 'a') false [] =
      .error (.lzc (.NameTooLong (some (List.replicate 256 'a')))) := by
  refine ⟨?_, by decide, by decide, by decide, by rfl⟩
  intro s
  constructor
  · intro h
    refine ⟨pySplit_ne_nil '/' s, ?_⟩
    intro c hc
    simp only [_is_valid_fs_name, Bool.and_eq_true, List.all_eq_true] at h
    exact (valid_component_iff c).mp (h.2 c hc)
  · intro ⟨_, h⟩
    cases s with
    | nil =>
      exact absurd (h [] (by simp [pySplit])).1 (by simp)
    | cons a as =>
      simp only [_is_valid_fs_name, Bool.and_eq_true, List.all_eq_true]
      exact ⟨by simp, fun c hc => (valid_component_iff c).mpr (h c hc)⟩

theorem fs_name_grammar_characterization_witness :
    _is_valid_fs_name ("pool/fs").data = true ∧
    _is_valid_fs_name ("pool//fs").data = false := by
  obtain ⟨_, h1, h2, _⟩ := fs_name_grammar_characterization
  exact ⟨h1, h2⟩

/-! ## Claim C10 -/

/-- C10: the snapshot-name validator accepts a string only when it contains
exactly one `@`, and the bookmark validator accepts only strings containing
exactly one `#`, regardless of the well-formedness of the segments. -/
theorem snap_bmark_single_separator (s : PyStr) :
    (s.count '@' ≠ 1 → _is_valid_snap_name s = false) ∧
    (s.count '#' ≠ 1 → _is_valid_bmark_name s = false) := by
  constructor
  · intro h
    have hl : (pySplit '@' s).length ≠ 2 := by
      rw [pySplit_length]; omega
    simp [_is_valid_snap_name, Nat.beq_eq_true_eq, hl]
  · intro h
    have hl : (pySplit '#' s).length ≠ 2 := by
      rw [pySplit_length]; omega
    simp [_is_valid_bmark_name, Nat.beq_eq_true_eq, hl]

theorem snap_bmark_single_separator_witness :
    _is_valid_snap_name ("pool/fs@a@b").data = false ∧
    _is_valid_bmark_name ("pool/fs#a#b").data = false ∧
    _is_valid_snap_name ("pool/fs").data = false := by
  refine ⟨(snap_bmark_single_separator ("pool/fs@a@b").data).1 (by decide),
    (snap_bmark_single_separator ("pool/fs#a#b").data).2 (by decide),
    (snap_bmark_single_separator ("pool/fs").data).1 (by decide)⟩

/-! ## Claim C1 -/

/-- C1 (failing case): encoding a map containing a sequence value raises a
Python TypeError immediately — `_dict_to_nvlist` invokes
`_nvlist_add_array(nvlist, v)` with two arguments although the function
takes three — so `decode(encode(m))` cannot return `m` for any map with a
sequence value; the parent container allocated by `nvlist_in` is still
live when the exception propagates. -/
theorem encode_sequence_value_raises_type_error :
    nvlist_in_acquire [(("a").data, .vlist [.vbool true, .vbool false])] ⟨0, [], []⟩ =
      (.error (.typeError "_nvlist_add_array() takes exactly 3 arguments (2 given)"),
        ⟨1, [(0, [])], []⟩) := rfl

/-! ## Claim C7 -/

/-- C7: the `_prop_name_to_type_str` table does map the four well-known
keys to the claimed 32-bit accessor suffixes (and no other key), but the
use site never reaches it: encoding any plain-integer value — including
one stored under "rewind-request" — raises NameError on the undefined name
`get`, because the source reads `_prop_name_to_type_str,get(k, "uint64")`
with a comma instead of a dot. -/
theorem well_known_key_table_and_int_encode_slip :
    _prop_name_to_type_str.lookup ("rewind-request").data = some "uint32" ∧
    _prop_name_to_type_str.lookup ("type").data = some "uint32" ∧
    _prop_name_to_type_str.lookup ("N_MORE_ERRORS").data = some "int32" ∧
    _prop_name_to_type_str.lookup ("pool_context").data = some "int32" ∧
    _prop_name_to_type_str.length = 4 ∧
    nvlist_in_acquire [(("rewind-request").data, .vint 1)] ⟨0, [], []⟩ =
      (.error (.nameError "get"), ⟨1, [(0, [])], []⟩) :=
  ⟨rfl, rfl, rfl, rfl, rfl, rfl⟩

/-! ## Claim C9 -/

/-- C9: when the body of `nvlist_out(props)` raises, `props` is indeed left
unchanged (clear and decode run only on normal exit), but the populated
container is not released: the finally clause references the undefined
name `nvlist` (the local is `nvlistp`), so a NameError supersedes the
body's exception and the free is never executed.  On normal exit the same
undefined name aborts decoding right after `props.clear()`. -/
theorem nvlist_out_body_exception_leak :
    nvlist_out_run [(("old").data, .vbool true)] (some [(("k").data, .wboolean)])
        (some (.runtimeError "external call failed")) ⟨0, [], []⟩ =
      (.error (.nameError "nvlist"), ⟨1, [(0, [(("k").data, .wboolean)])], []⟩,
        [(("old").data, .vbool true)]) ∧
    nvlist_out_run [(("old").data, .vbool true)] (some [(("k").data, .wboolean)])
        none ⟨0, [], []⟩ =
      (.error (.nameError "nvlist"), ⟨1, [(0, [(("k").data, .wboolean)])], []⟩, []) :=
  ⟨rfl, rfl⟩

/-! ## Claim C5 -/

/-- C5 (counterexample): a sequence of two CData integers with different
declared widths is not rejected by the homogeneity loop — all CData share
one Python type, so `type(array[i]) is not type(specimen)` never fires —
and the CData array branch then raises NameError on the undefined name
`s_array` rather than any type-mismatch failure (with the heap untouched,
so no accessor ran either). -/
theorem array_cdata_width_mismatch_not_rejected :
    _nvlist_add_array 0 ("k").data [.vcdata .uint32_t 1, .vcdata .int64_t 2]
        ⟨1, [(0, [])], []⟩ =
      (.error (.nameError "s_array"), ⟨1, [(0, [])], []⟩) := rfl

/-- C5 (amended): when a sequence contains an element whose Python-level
type differs from the first element's, `_nvlist_add_array` raises the
type-mismatch TypeError naming both types, at the first such element, and
leaves the heap completely untouched — no allocation and no wire accessor
has run. -/
theorem array_python_type_mismatch_first (nvl : Nat) (key : PyStr)
    (specimen bad : PyVal) (rest : List PyVal) (s : NvHeap)
    (hfind : rest.find? (fun x => pyTypeName x != pyTypeName specimen) = some bad) :
    _nvlist_add_array nvl key (specimen :: rest) s =
      (.error (.typeError ("Array has elements of different types: " ++
        pyTypeName specimen ++ " and " ++ pyTypeName bad)), s) := by
  simp [_nvlist_add_array, hfind, mthrow]

theorem array_python_type_mismatch_first_witness :
    _nvlist_add_array 0 ("k").data [.vstr ("a").data, .vint 1] ⟨0, [], []⟩ =
      (.error (.typeError "Array has elements of different types: str and int"),
        ⟨0, [], []⟩) :=
  array_python_type_mismatch_first 0 ("k").data (.vstr ("a").data) (.vint 1)
    [.vint 1] ⟨0, [], []⟩ rfl

/-! ## Claim C2 -/

/-- C2 (counterexample): a failure while populating an already-allocated
sub-container propagates without any cleanup.  Encoding a one-element
sequence of maps whose map holds a float value allocates sub-container 1,
then raises the unsupported-type TypeError from the populate call; handle
1 is still live in the final heap, so a container handle remains
outstanding after the encode fails. -/
theorem array_populate_failure_leaks :
    _nvlist_add_array 0 ("k").data [.vdict [(("x").data, .vother "float")]]
        ⟨1, [(0, [])], []⟩ =
      (.error (.typeError "Unsupported value type float"),
        ⟨2, [(1, []), (0, [])], []⟩) := rfl

/-! ## Claim C4 -/

/-- C4: `_handleErrList` with a non-zero status and an empty item map
raises one batch failure holding the aggregate status classified against
the sole requested name (an absent name unless exactly one was requested)
with suppressed count 0; with a non-empty map it pops `N_MORE_ERRORS` as
the suppressed count (0 when missing) and classifies every remaining item
against its own name. -/
theorem handleErrList_batch_classification (ret : Int)
    (errlist : List (PyStr × Int)) (names : List PyStr) (kind : BatchKind)
    (mapper : Int → Option PyStr → LzcError) (hret : ret ≠ 0) :
    (errlist = [] →
      _handleErrList ret errlist names kind mapper =
        .error (.batch kind
          [mapper ret (match names with | [n] => some n | _ => none)] 0)) ∧
    (errlist ≠ [] →
      _handleErrList ret errlist names kind mapper =
        .error (.batch kind
          ((popRemove errlist nMoreErrorsKey).map (fun p => mapper p.2 (some p.1)))
          (popGetD errlist nMoreErrorsKey 0))) := by
  constructor <;> intro h <;> simp_all [_handleErrList]

theorem handleErrList_batch_classification_witness :
    lzc_snapshot_xlate_errors EEXIST
        [(("pool/a@s1").data, EEXIST), (nMoreErrorsKey, 4)]
        [("pool/a@s1").data] [] =
      .error (.batch .SnapshotFailure
        [.SnapshotExists (some ("pool/a@s1").data)] 4) := by
  have h := (handleErrList_batch_classification EEXIST
    [(("pool/a@s1").data, EEXIST), (nMoreErrorsKey, 4)]
    [("pool/a@s1").data] .SnapshotFailure
    (lzc_snapshot_map [("pool/a@s1").data]) (by decide)).2 (by decide)
  exact h

/-! ## Helper lemmas for the cleanup theorem -/

theorem entryRel_map (h : Nat) (k : PyStr) (wv : WireVal)
    (l : List (Nat × List (PyStr × WireVal))) :
    List.Forall₂ (entryRel h) l
      (l.map (fun p => if p.1 = h then (p.1, p.2 ++ [(k, wv)]) else p)) := by
  induction l with
  | nil => simp
  | cons p t ih =>
    refine List.Forall₂.cons ?_ ih
    by_cases hp : p.1 = h <;> simp [entryRel, hp]

theorem entryRel_forall₂_trans (h : Nat) {l1 l2 l3 : List (Nat × List (PyStr × WireVal))}
    (h12 : List.Forall₂ (entryRel h) l1 l2) (h23 : List.Forall₂ (entryRel h) l2 l3) :
    List.Forall₂ (entryRel h) l1 l3 := by
  induction h12 generalizing l3 with
  | nil => cases h23; exact List.Forall₂.nil
  | @cons p q t1 t2 hpq h' ih =>
    cases h23 with
    | @cons _ r _ t3 hqr h'' =>
      refine List.Forall₂.cons ?_ (ih h'')
      obtain ⟨e1, e2⟩ := hpq
      obtain ⟨f1, f2⟩ := hqr
      refine ⟨f1.trans e1, fun hne => ?_⟩
      have hq := e2 hne
      have : q.1 ≠ h := by rw [e1]; exact hne
      rw [f2 this, hq]

theorem entryRel_forall₂_fst (h : Nat) {l cs : List (Nat × List (PyStr × WireVal))}
    (hrel : List.Forall₂ (entryRel h) l cs) :
    cs.map Prod.fst = l.map Prod.fst := by
  induction hrel with
  | nil => rfl
  | cons hpq _ ih => simp [ih, hpq.1]

theorem entryRel_forall₂_fixed (h : Nat) {l cs : List (Nat × List (PyStr × WireVal))}
    (hrel : List.Forall₂ (entryRel h) l cs) (hout : ∀ p ∈ l, p.1 ≠ h) :
    cs = l := by
  induction hrel with
  | nil => rfl
  | @cons p q t1 t2 hpq _ ih =>
    rw [hpq.2 (hout p (by simp)), ih (fun r hr => hout r (by simp [hr]))]

theorem addOne_flat (k : PyStr) (v : PyVal) (h : Nat) (s : NvHeap)
    (hv : scalarOk v = true) :
    ∃ cs, _dict_to_nvlist.addOne k v h s = (.ok (), ⟨s.nextId, cs, s.allocFail⟩) ∧
      List.Forall₂ (entryRel h) s.contents cs := by
  cases v with
  | vstr sv => exact ⟨_, rfl, entryRel_map h k (.wstring sv) s.contents⟩
  | vbool b => exact ⟨_, rfl, entryRel_map h k (.wboolean_value b) s.contents⟩
  | vnone => exact ⟨_, rfl, entryRel_map h k .wboolean s.contents⟩
  | vcdata t n => exact ⟨_, rfl, entryRel_map h k (.wnum (_type_to_suffix t) n) s.contents⟩
  | vint n => simp [scalarOk] at hv
  | vdict d => simp [scalarOk] at hv
  | vlist l => simp [scalarOk] at hv
  | vother t => simp [scalarOk] at hv

theorem dict_to_nvlist_flat (d : List (PyStr × PyVal)) (h : Nat) :
    ∀ s : NvHeap, d.all (fun p => scalarOk p.2) = true →
    ∃ cs, _dict_to_nvlist d h s = (.ok (), ⟨s.nextId, cs, s.allocFail⟩) ∧
      List.Forall₂ (entryRel h) s.contents cs := by
  induction d with
  | nil =>
    intro s _
    exact ⟨s.contents, rfl, List.forall₂_same.mpr (fun x _ => ⟨rfl, fun _ => rfl⟩)⟩
  | cons kv rest ih =>
    intro s hflat
    obtain ⟨k, v⟩ := kv
    simp only [List.all_cons, Bool.and_eq_true] at hflat
    obtain ⟨cs1, hrun1, hrel1⟩ := addOne_flat k v h s hflat.1
    obtain ⟨cs2, hrun2, hrel2⟩ := ih ⟨s.nextId, cs1, s.allocFail⟩ hflat.2
    refine ⟨cs2, ?_, entryRel_forall₂_trans h hrel1 hrel2⟩
    show (mbind (_dict_to_nvlist.addOne k v h) (fun _ => _dict_to_nvlist rest h)) s =
      (.ok (), ⟨s.nextId, cs2, s.allocFail⟩)
    rw [mbind, hrun1]
    simpa using hrun2

theorem freeAll_filter (hs : List Nat) :
    ∀ s : NvHeap, freeAll hs s =
      (.ok (), { s with contents := s.contents.filter (fun p => decide (p.1 ∉ hs)) }) := by
  induction hs with
  | nil =>
    intro s
    have hfil : s.contents.filter (fun p => decide (p.1 ∉ ([] : List Nat))) = s.contents :=
      List.filter_eq_self.mpr (by simp)
    rw [hfil]
    rfl
  | cons h t ih =>
    intro s
    have hfil : (s.contents.filter (fun p => decide (p.1 ≠ h))).filter
        (fun p => decide (p.1 ∉ t)) = s.contents.filter (fun p => decide (p.1 ∉ h :: t)) := by
      rw [List.filter_filter]
      refine List.filter_congr ?_
      intro p _
      by_cases h1 : p.1 = h <;> by_cases h2 : p.1 ∈ t <;>
        simp [h1, h2, List.mem_cons]
    have h2 := ih { s with contents := s.contents.filter (fun p => decide (p.1 ≠ h)) }
    simp only at h2
    rw [hfil] at h2
    show (mbind (nvlist_free h) (fun _ => freeAll t)) s = _
    rw [mbind, nvlist_free]
    simpa using h2

theorem allocPopulate_flat (arr : List PyVal) :
    ∀ s : NvHeap, arr.all flatDict = true → s.Fresh →
    ∃ k res s' newPairs,
      allocPopulate arr s = (.ok (List.range' s.nextId k, res), s') ∧
      s'.nextId = s.nextId + k ∧
      s'.contents = newPairs ++ s.contents ∧
      newPairs.map Prod.fst = (List.range' s.nextId k).reverse ∧
      s'.Fresh := by
  induction arr with
  | nil =>
    intro s _ hfresh
    refine ⟨0, 0, s, [], rfl, ?_, ?_, ?_, hfresh⟩
    · simp
    · simp
    · simp
  | cons v rest ih =>
    intro s hall hfresh
    simp only [List.all_cons, Bool.and_eq_true] at hall
    obtain ⟨hv, hrest⟩ := hall
    cases v with
    | vnone => exact Bool.noConfusion hv
    | vbool b => exact Bool.noConfusion hv
    | vint n => exact Bool.noConfusion hv
    | vstr sv => exact Bool.noConfusion hv
    | vcdata t n => exact Bool.noConfusion hv
    | vlist l => exact Bool.noConfusion hv
    | vother t => exact Bool.noConfusion hv
    | vdict d =>
      have hd : d.all (fun p => scalarOk p.2) = true := hv
      by_cases hfail : s.allocFail.headD false = true
      · -- the scheduled allocation failure breaks the loop at once
        refine ⟨0, 12, { s with allocFail := s.allocFail.tail }, [], ?_, ?_, ?_, ?_, ?_⟩
        · show (mbind nvlist_alloc _) s = _
          rw [mbind, nvlist_alloc, if_pos hfail]
          show mpure ([], (12 : Int)) { s with allocFail := s.allocFail.tail } = _
          rw [mpure]
          rfl
        · simp
        · simp
        · simp
        · exact hfresh
      · -- handle s.nextId is allocated and populated, then the loop continues
        obtain ⟨cs, hpop, hrel⟩ := dict_to_nvlist_flat d s.nextId
          ⟨s.nextId + 1, (s.nextId, []) :: s.contents, s.allocFail.tail⟩ hd
        have hout : ∀ p ∈ s.contents, p.1 ≠ s.nextId := by
          intro p hp
          have := hfresh p.1 (List.mem_map_of_mem Prod.fst hp)
          omega
        cases hrel with
        | @cons a q l1 cs' hq hr =>
          have hq1 : q.1 = s.nextId := hq.1
          have hcs' : cs' = s.contents := entryRel_forall₂_fixed s.nextId hr hout
          subst hcs'
          have hfresh2 : NvHeap.Fresh ⟨s.nextId + 1, q :: s.contents, s.allocFail.tail⟩ := by
            intro id hid
            show id < s.nextId + 1
            simp only [List.map_cons, List.mem_cons] at hid
            rcases hid with h1 | h2
            · omega
            · have := hfresh id h2
              omega
          obtain ⟨k', res', s3, np', hap', hnext', hcont', hids', hfresh3⟩ :=
            ih ⟨s.nextId + 1, q :: s.contents, s.allocFail.tail⟩ hrest hfresh2
          simp only at hnext' hcont' hids' hap'
          refine ⟨k' + 1, res', s3, np' ++ [q], ?_, ?_, ?_, ?_, hfresh3⟩
          · show (mbind nvlist_alloc _) s = _
            rw [mbind, nvlist_alloc, if_neg hfail]
            show (mbind (populateElem (PyVal.vdict d) s.nextId) (fun _ =>
                mbind (allocPopulate rest) (fun pr => mpure (s.nextId :: pr.1, pr.2))))
                ⟨s.nextId + 1, (s.nextId, []) :: s.contents, s.allocFail.tail⟩ = _
            rw [mbind]
            simp only [populateElem]
            rw [hpop]
            show (mbind (allocPopulate rest) (fun pr => mpure (s.nextId :: pr.1, pr.2)))
                ⟨s.nextId + 1, q :: s.contents, s.allocFail.tail⟩ = _
            rw [mbind, hap']
            show mpure (s.nextId :: List.range' (s.nextId + 1) k', res') s3 = _
            rw [mpure, List.range'_succ]
          · omega
          · rw [hcont']
            simp
          · simp only [List.map_append, List.map_cons, List.map_nil, hids', hq1]
            rw [List.range'_succ, List.reverse_cons]

/-- C2 (amended): over sequences of nested maps whose values are scalars,
whenever `_nvlist_add_array` itself raises — which happens exactly when a
sub-container allocation fails partway through the loop — every
sub-container allocated so far has been released before the MemoryError
propagates: the final heap contents equal the initial ones. -/
theorem nvlist_add_array_alloc_failure_cleanup (nvl : Nat) (key : PyStr)
    (array : List PyVal) (s : NvHeap) (e : PyExc) (s' : NvHeap)
    (hfresh : s.Fresh) (hflat : array.all flatDict = true) (hne : array ≠ [])
    (hrun : _nvlist_add_array nvl key array s = (.error e, s')) :
    e = .memoryError "nvlist_alloc failed" ∧ s'.contents = s.contents := by
  obtain ⟨specimen, rest, rfl⟩ : ∃ a l, array = a :: l := by
    cases array with
    | nil => exact absurd rfl hne
    | cons a l => exact ⟨a, l, rfl⟩
  simp only [List.all_cons, Bool.and_eq_true] at hflat
  obtain ⟨hs0, hr0⟩ := hflat
  have hdict : ∀ v, flatDict v = true → pyTypeName v = "dict" := by
    intro v hv
    cases v <;> first | rfl | exact Bool.noConfusion hv
  have hfind : rest.find? (fun x => pyTypeName x != pyTypeName specimen) = none := by
    rw [List.find?_eq_none]
    intro x hx
    have h1 := hdict x (List.all_eq_true.mp hr0 x hx)
    have h2 := hdict specimen hs0
    simp [h1, h2]
  obtain ⟨d, rfl⟩ : ∃ d, specimen = PyVal.vdict d := by
    cases specimen with
    | vdict d => exact ⟨d, rfl⟩
    | vnone => exact Bool.noConfusion hs0
    | vbool b => exact Bool.noConfusion hs0
    | vint n => exact Bool.noConfusion hs0
    | vstr sv => exact Bool.noConfusion hs0
    | vcdata t n => exact Bool.noConfusion hs0
    | vlist l => exact Bool.noConfusion hs0
    | vother t => exact Bool.noConfusion hs0
  obtain ⟨k, res, s1, np, hap, hnext, hcont, hids, hfresh1⟩ :=
    allocPopulate_flat (PyVal.vdict d :: rest) s
      (by simp [List.all_cons, hs0, hr0]) hfresh
  simp only [_nvlist_add_array, hfind, mbind, hap] at hrun
  by_cases hres : res = 0
  · subst hres
    simp [mbind, nvlist_add_nvlist_array, addEntry, lookupContents, freeAll_filter,
      mpure] at hrun
  · rw [if_pos hres] at hrun
    simp only [mbind, freeAll_filter, mthrow] at hrun
    rw [Prod.mk.injEq] at hrun
    obtain ⟨he, hs'⟩ := hrun
    have he' : e = PyExc.memoryError "nvlist_alloc failed" := (Except.error.inj he).symm
    refine ⟨he', ?_⟩
    rw [← hs']
    show s1.contents.filter (fun p => decide (p.1 ∉ List.range' s.nextId k)) = s.contents
    rw [hcont, List.filter_append]
    have hnp : np.filter (fun p => decide (p.1 ∉ List.range' s.nextId k)) = [] := by
      rw [List.filter_eq_nil_iff]
      intro p hp
      have h1 : p.1 ∈ np.map Prod.fst := List.mem_map_of_mem Prod.fst hp
      rw [hids] at h1
      have h2 : p.1 ∈ List.range' s.nextId k := List.mem_reverse.mp h1
      simp [h2]
    have hold : s.contents.filter (fun p => decide (p.1 ∉ List.range' s.nextId k)) =
        s.contents := by
      rw [List.filter_eq_self]
      intro p hp
      have h1 := hfresh p.1 (List.mem_map_of_mem Prod.fst hp)
      have h2 : p.1 ∉ List.range' s.nextId k := by
        intro hmem
        have := (List.mem_range'_1.mp hmem).1
        omega
      simp [h2]
    rw [hnp, hold, List.nil_append]

theorem nvlist_add_array_alloc_failure_cleanup_witness :
    (_nvlist_add_array 0 (("k").data) [.vdict [(("x").data, .vbool true)], .vdict []]
        ⟨1, [(0, [])], [false, true]⟩).2.contents = [(0, [])] := by
  have h := nvlist_add_array_alloc_failure_cleanup 0 (("k").data)
    [.vdict [(("x").data, .vbool true)], .vdict []]
    ⟨1, [(0, [])], [false, true]⟩ (.memoryError "nvlist_alloc failed")
    ⟨2, [(0, [])], []⟩ (by decide) (by decide) (by simp) rfl
  exact h.2
